import Mathlib

/-!
Verification development for the alba_mf_etl pipeline
(src/scripts/alba_mf_etl.py).

The script is a three-stage ETL over a single wide spreadsheet sheet.
We shallowly embed the tabular data model and the transform / driver
logic as executable Lean functions and prove the specification claims
about them.

Modelling conventions:
* a cell is either the missing marker (NaN / NaT, produced by empty
  spreadsheet cells and by failed coercions), a text value, a numeric
  value (floats are modelled as rationals), or a timestamp (nanoseconds
  since the 1970-01-01 epoch, the pandas representation);
* a DataFrame is a list of column names plus a list of rows; pandas
  frames are rectangular, which the transform checks once as a guard;
* fallible steps (indexing errors, KeyError on a missing column label,
  a length-mismatched column assignment) return Option.none, matching
  the except-clause of the source that turns any exception into an
  absent result;
* the host-language renderings that no claim depends on (str() of a
  float used while deriving header names, the full dateutil grammar of
  parseable date strings, the textual CSV serialisation) are abstracted:
  date strings are parsed in the ISO forms YYYY-MM-DD and
  YYYY-MM-DD HH:MM:SS, every other string is unparseable.
-/

inductive Cell where
  | empty
  | str (s : String)
  | num (q : Rat)
  | dt (t : Int)
deriving DecidableEq, Repr

structure DataFrame where
  colNames : List String
  rows : List (List Cell)
deriving DecidableEq, Repr

/-- A pandas frame is rectangular: every row has one value per column. -/
def DataFrame.rect (df : DataFrame) : Bool :=
  df.rows.all (fun r => r.length == df.colNames.length)

/-- The missing marker (NaN / NaT) is the only value pandas isna detects;
text values, including the empty string, are not missing. -/
def isNA : Cell → Bool
  | Cell.empty => true
  | _ => false

/-- str(x) applied to a cell while deriving header names (source line 77).
NaN stringifies to "nan" and text to itself; the rendering of numeric and
timestamp header cells is abstracted, since no claim depends on it. -/
def cellToStr : Cell → String
  | Cell.empty => "nan"
  | Cell.str s => s
  | Cell.num q => toString q
  | Cell.dt t => toString t

/-- Header normalisation of source line 80: lower-case, then spaces
and hyphens replaced by underscores.  Both replacements are of a
single character, so the whole normalisation is a character map
(multi-character Unicode case folds are out of scope: the headers are
plain text). -/
def normalizeChar (c : Char) : Char :=
  let lc := c.toLower
  if lc == ' ' || lc == '-' then '_' else lc

def normalizeName (s : String) : String :=
  String.mk (s.data.map normalizeChar)

/-- The five fixed positions force-renamed to date_1 .. date_5
(source lines 74 and 83-84). -/
def renamePositions : List (Nat × String) :=
  [(1, "date_1"), (18, "date_2"), (35, "date_3"), (47, "date_4"), (55, "date_5")]

def applyRenames (ns : List String) : List String :=
  renamePositions.foldl (fun acc p => acc.set p.1 p.2) ns

def charsToNat (cs : List Char) : Nat :=
  cs.foldl (fun a c => a * 10 + (c.toNat - 48)) 0

/-- pat occurs as a contiguous subsequence of cs. -/
def containsSeq (pat : List Char) : List Char → Bool
  | [] => pat.isEmpty
  | c :: rest => List.isPrefixOf pat (c :: rest) || containsSeq pat rest

/-- The Python substring test "date" in col (source line 96). -/
def containsDate (s : String) : Bool :=
  containsSeq "date".data s.data

/-- Strip leading and trailing whitespace. -/
def trimChars (cs : List Char) : List Char :=
  ((cs.dropWhile Char.isWhitespace).reverse.dropWhile Char.isWhitespace).reverse

/-- Split on a single separator character (the separators the date and
time grammars need). -/
def splitOnChar (sep : Char) : List Char → List (List Char)
  | [] => [[]]
  | c :: rest =>
    let r := splitOnChar sep rest
    if c == sep then [] :: r
    else
      match r with
      | h :: t => (c :: h) :: t
      | [] => [[c]]

/-- A non-empty all-digit character run, as a number. -/
def digitsToNat? (cs : List Char) : Option Nat :=
  if !cs.isEmpty && cs.all Char.isDigit then some (charsToNat cs) else none

def nsPerDay : Int := 86400000000000

def isLeapYear (y : Nat) : Bool :=
  (y % 4 == 0 && y % 100 != 0) || y % 400 == 0

def daysInMonth (y : Nat) (m : Nat) : Nat :=
  if m == 2 then (if isLeapYear y then 29 else 28)
  else if m == 4 || m == 6 || m == 9 || m == 11 then 30
  else 31

/-- Civil date to days since 1970-01-01 (Howard Hinnant's algorithm,
the arithmetic pandas timestamps are built on). -/
def daysFromCivil (y : Nat) (m : Nat) (d : Nat) : Int :=
  let yi : Int := if m ≤ 2 then (y : Int) - 1 else (y : Int)
  let era : Int := (if 0 ≤ yi then yi else yi - 399) / 400
  let yoe : Nat := (yi - era * 400).toNat
  let mp : Nat := if 2 < m then m - 3 else m + 9
  let doy : Nat := (153 * mp + 2) / 5 + d - 1
  let doe : Nat := yoe * 365 + yoe / 4 - yoe / 100 + doy
  era * 146097 + (doe : Int) - 719468

/-- Parse the date component YYYY-MM-DD of an ISO datetime string,
validating the calendar ranges; result is a day count since the epoch. -/
def parseDatePart (cs : List Char) : Option Int :=
  match splitOnChar '-' cs with
  | [ys, ms, ds] =>
    match digitsToNat? ys, digitsToNat? ms, digitsToNat? ds with
    | some y, some m, some d =>
      if ys.length == 4 && 1 ≤ m && m ≤ 12 && 1 ≤ d && d ≤ daysInMonth y m then
        some (daysFromCivil y m d)
      else none
    | _, _, _ => none
  | _ => none

/-- Parse the time component HH:MM:SS, giving seconds within the day. -/
def parseTimePart (cs : List Char) : Option Nat :=
  match splitOnChar ':' cs with
  | [hs, ms, ss] =>
    match digitsToNat? hs, digitsToNat? ms, digitsToNat? ss with
    | some h, some m, some sec =>
      if h < 24 && m < 60 && sec < 60 then some (h * 3600 + m * 60 + sec) else none
    | _, _, _ => none
  | _ => none

/-- Parse an ISO datetime string to nanoseconds since the epoch. -/
def parseDatetime (s : String) : Option Int :=
  match splitOnChar ' ' (trimChars s.data) with
  | [d] => (parseDatePart d).map (fun day => day * nsPerDay)
  | [d, t] =>
    match parseDatePart d, parseTimePart t with
    | some day, some sec => some (day * nsPerDay + (sec : Int) * 1000000000)
    | _, _ => none
  | _ => none

/-- pd.to_datetime with errors coerce, element-wise: missing stays
missing, timestamps pass through, numbers are epoch nanoseconds,
strings are parsed and unparseable ones become the missing marker. -/
def pdToDatetime : Cell → Cell
  | Cell.empty => Cell.empty
  | Cell.dt t => Cell.dt t
  | Cell.num q => Cell.dt (Int.fdiv q.num (q.den : Int))
  | Cell.str s =>
    match parseDatetime s with
    | some t => Cell.dt t
    | none => Cell.empty

/-- dt.floor with a one-day frequency: zero the time-of-day component. -/
def floorD : Cell → Cell
  | Cell.dt t => Cell.dt (t - t.emod nsPerDay)
  | c => c

/-- Apply an optional decimal exponent to a mantissa held as a
numerator m over a power-of-ten denominator d. -/
def parseExpDigits (m d : Nat) (neg : Bool) (cs : List Char) : Option Rat :=
  if !cs.isEmpty && cs.all Char.isDigit then
    let e := charsToNat cs
    some (if neg then mkRat m (d * 10 ^ e) else mkRat (m * 10 ^ e) d)
  else none

def parseExpSigned (m d : Nat) (cs : List Char) : Option Rat :=
  match cs with
  | '+' :: r => parseExpDigits m d false r
  | '-' :: r => parseExpDigits m d true r
  | r => parseExpDigits m d false r

/-- Unsigned float literal: digits, optional fraction, optional exponent. -/
def parseUnsignedFloat (cs : List Char) : Option Rat :=
  let ip := cs.takeWhile Char.isDigit
  let rest := cs.dropWhile Char.isDigit
  match rest with
  | [] => if ip.isEmpty then none else some (mkRat (charsToNat ip) 1)
  | '.' :: rest2 =>
    let fp := rest2.takeWhile Char.isDigit
    let rest3 := rest2.dropWhile Char.isDigit
    if ip.isEmpty && fp.isEmpty then none
    else
      let m := charsToNat ip * 10 ^ fp.length + charsToNat fp
      let d := 10 ^ fp.length
      match rest3 with
      | [] => some (mkRat m d)
      | 'e' :: r => parseExpSigned m d r
      | 'E' :: r => parseExpSigned m d r
      | _ => none
  | 'e' :: r => if ip.isEmpty then none else parseExpSigned (charsToNat ip) 1 r
  | 'E' :: r => if ip.isEmpty then none else parseExpSigned (charsToNat ip) 1 r
  | _ => none

/-- The numeric-literal grammar accepted by pd.to_numeric: optional
surrounding whitespace, optional sign, then a float literal.  A comma
or any other stray character makes the parse fail. -/
def parseFloat (s : String) : Option Rat :=
  match trimChars s.data with
  | '-' :: cs => (parseUnsignedFloat cs).map (fun q => -q)
  | '+' :: cs => parseUnsignedFloat cs
  | cs => parseUnsignedFloat cs

/-- pd.to_numeric with errors coerce, element-wise: numbers pass
through, missing stays missing, non-numeric objects and unparseable
strings become the missing marker. -/
def pdToNumeric : Cell → Cell
  | Cell.empty => Cell.empty
  | Cell.num q => Cell.num q
  | Cell.dt _ => Cell.empty
  | Cell.str s =>
    match parseFloat s with
    | some q => Cell.num q
    | none => Cell.empty

/-- Column slice df.iloc[:, a:b] (Python slice semantics: truncates
when the frame is narrower). -/
def sliceCols (a b : Nat) (df : DataFrame) : DataFrame :=
  ⟨(df.colNames.drop a).take (b - a),
   df.rows.map (fun r => (r.drop a).take (b - a))⟩

/-- Apply f to every cell sitting in a column whose name satisfies p
(the per-column loops of source lines 97-98 and 107-109). -/
def mapCols (p : String → Bool) (f : Cell → Cell) (df : DataFrame) : DataFrame :=
  ⟨df.colNames,
   df.rows.map (fun r => (df.colNames.zip r).map (fun nc => if p nc.1 then f nc.2 else nc.2))⟩

/-- Keep, inside one row, the cells of the columns whose name satisfies p. -/
def filterRow (p : String → Bool) (names : List String) (r : List Cell) : List Cell :=
  ((names.zip r).filter (fun nc => p nc.1)).map (fun nc => nc.2)

/-- Keep the columns whose name satisfies p. -/
def filterCols (p : String → Bool) (df : DataFrame) : DataFrame :=
  ⟨df.colNames.filter p, df.rows.map (filterRow p df.colNames)⟩

/-- df.drop(columns=bad): KeyError (hence an absent result) when a
label is missing, otherwise every column with a listed name goes. -/
def dropColumns (bad : List String) (df : DataFrame) : Option DataFrame :=
  if bad.all (fun n => df.colNames.contains n) then
    some (filterCols (fun n => !(bad.contains n)) df)
  else none

def selectRow (idxs : List Nat) (r : List Cell) : List Cell :=
  idxs.map (fun i => r.getD i Cell.empty)

/-- df[names]: select columns by name, in the given order; KeyError
(absent result) when a label is missing. -/
def selectCols (names : List String) (df : DataFrame) : Option DataFrame :=
  match names.mapM (fun n => df.colNames.findIdx? (fun m => m == n)) with
  | some idxs => some ⟨names, df.rows.map (selectRow idxs)⟩
  | none => none

/-- df.rename(columns=...): every occurrence of the old label is
renamed; absent labels are silently ignored. -/
def renameCol (old new : String) (df : DataFrame) : DataFrame :=
  ⟨df.colNames.map (fun n => if n == old then new else n), df.rows⟩

/-- A row survives dropna(how=all) iff some cell is not missing. -/
def keepRow (r : List Cell) : Bool :=
  !(r.all isNA)

/-- df.dropna(how=all): drop the rows that are missing in every column. -/
def dropnaAll (df : DataFrame) : DataFrame :=
  ⟨df.colNames, df.rows.filter keepRow⟩

def getCell (df : DataFrame) (i j : Nat) : Option Cell :=
  (df.rows[i]?).bind (fun r => r[j]?)

/-- Source lines 73-87: take row index 1 of the raw frame, stringify
and normalise each entry, force-rename the five fixed positions, and
assign the result as the frame's column labels.  Fails (exception in
the source) when the frame has fewer than two rows, fewer than 56
columns (the position-55 assignment raises IndexError), or when the
label list does not match the column count.  The rectangularity guard
states the pandas frame invariant once. -/
def derivedHeader (df : DataFrame) : Option (List String) :=
  match df.rows[1]? with
  | none => none
  | some headerRow =>
    let names0 := headerRow.map (fun c => normalizeName (cellToStr c))
    if 55 < names0.length && names0.length == df.colNames.length && df.rect then
      some (applyRenames names0)
    else none

def lhcDropCols : List String :=
  ["eglng_propane_sales", "llc_share_of_secondary_condensate", "psc_share_of_secondary_condensate"]

def gpKeepCols : List String :=
  ["date_2", "ampco_gas_sales", "eglng_gas_sales", "gas_sales", "offshore_gas"]

def tdKeepCols : List String :=
  ["date_3", "tank_name", "standard_net_oil_volume_(bbls)"]

/-- Source lines 73-109, the cleaned wide table: derive and assign the
header, drop the first two rows, truncate to columns 1..49, parse the
date-named columns, drop the columns literally named "nan", and coerce
the remaining non-excluded columns to numbers.  The per-label loops of
the source require the non-"nan" labels to be distinct (a duplicated
label makes the element-wise coercion raise), which the Nodup guard
records. -/
def cleanedWide (df : DataFrame) : Option DataFrame :=
  match derivedHeader df with
  | none => none
  | some names =>
    let wide0 := sliceCols 1 50 ⟨names, df.rows.drop 2⟩
    if (wide0.colNames.filter (fun n => n != "nan")).Nodup then
      let dateCols := wide0.colNames.filter containsDate
      let wide1 := mapCols containsDate (fun c => floorD (pdToDatetime c)) wide0
      let wide2 := filterCols (fun n => n != "nan") wide1
      some (mapCols (fun n => !((dateCols ++ ["tank_name", "product"]).contains n)) pdToNumeric wide2)
    else none

/-- Source lines 63-175, the transform stage.  The first returned frame
is the raw table as the stage leaves it: line 87 reassigns the column
labels of the very frame the extractor produced, so the raw table ends
the stage carrying the derived names (its rows are untouched).  The
remaining four frames are the cleaned sub-tables. -/
def transform (df : DataFrame) :
    Option (DataFrame × DataFrame × DataFrame × DataFrame × DataFrame) :=
  match derivedHeader df, cleanedWide df with
  | some names, some w =>
    let lhc0 := dropnaAll (sliceCols 0 11 w)
    let gp0 := dropnaAll (sliceCols 12 24 w)
    let td0 := dropnaAll (sliceCols 27 35 w)
    let dld0 := dropnaAll (sliceCols 35 38 w)
    match dropColumns lhcDropCols lhc0, selectCols gpKeepCols gp0, selectCols tdKeepCols td0 with
    | some lhc1, some gp1, some td1 =>
      some (⟨names, df.rows⟩,
            renameCol "date_1" "date" lhc1,
            renameCol "date_2" "date" gp1,
            renameCol "date_3" "date" td1,
            renameCol "date_4" "date" dld0)
    | _, _, _ => none
  | _, _ => none

/-!
Stage and driver model (source lines 31-61 and 179-214).

A run is parameterised by the content of the input spreadsheet (none
when the file is missing) and by whether the external load services
(final directory, database) succeed.  Every file or table the pipeline
writes is recorded as a destination/content pair; the filesystem and
database are black-box services whose writes have replace semantics.
-/

inductive Dest where
  | staging
  | processed (name : String)
  | final (name : String)
  | db (name : String)
deriving DecidableEq, Repr

abbrev Writeout := Dest × DataFrame

/-- extract_from_excel_ec_data, lines 31-45: read the sheet, save an
unmodified staging copy; on a missing file log the error and return
no result (and write nothing). -/
def extractStage (input : Option DataFrame) : Option DataFrame × List Writeout :=
  match input with
  | some df => (some df, [(Dest.staging, df)])
  | none => (none, [])

/-- The transform stage as invoked by the driver, lines 63-177 and 208:
the extract result dictionary may hold no frame, in which case line 73
raises and the except clause yields no result; on success the four
intermediate CSVs are written and the four tables returned.  (The
mutated raw frame is internal state, not part of the stage result.) -/
def transformStage (dict : Option DataFrame) :
    Option (DataFrame × DataFrame × DataFrame × DataFrame) × List Writeout :=
  match dict with
  | none => (none, [])
  | some df =>
    match transform df with
    | none => (none, [])
    | some (_, lhc, gp, td, dld) =>
      (some (lhc, gp, td, dld),
       [(Dest.processed "liquid_hydrocarbons_cached", lhc),
        (Dest.processed "gas_production", gp),
        (Dest.processed "tank_data", td),
        (Dest.processed "daily_lifting_data", dld)])

/-- load, lines 179-201: write the four final CSVs and the four
database tables (replace semantics; the synthetic id column is a
function of row order, so the stored content is determined by the
frame), returning True; when the external services fail, the error is
logged and swallowed and the stage returns no result. -/
def loadStage (loadOk : Bool) (t : DataFrame × DataFrame × DataFrame × DataFrame) :
    Option Bool × List Writeout :=
  if loadOk then
    (some true,
     [(Dest.final "liquid_hydrocarbons_cached", t.1),
      (Dest.final "gas_production", t.2.1),
      (Dest.final "tank_data", t.2.2.1),
      (Dest.final "daily_lifting_data", t.2.2.2),
      (Dest.db "liquid_hydrocarbons_cached", t.1),
      (Dest.db "gas_production", t.2.1),
      (Dest.db "tank_data", t.2.2.1),
      (Dest.db "daily_lifting_data", t.2.2.2)])
  else (none, [])

structure RunResult where
  ok : Bool
  loadInvoked : Bool
  writes : List Writeout
deriving DecidableEq, Repr

/-- run, lines 203-214: extract, then transform, then load, in that
order.  Unpacking an absent transform result raises, the except clause
returns False, and load is never invoked.  When the tuple unpacks, load
is invoked but its return value is discarded (line 209) and run
returns True regardless of the load outcome. -/
def run (loadOk : Bool) (input : Option DataFrame) : RunResult :=
  let ex := extractStage input
  let tr := transformStage ex.1
  match tr.1 with
  | none => ⟨false, false, ex.2 ++ tr.2⟩
  | some tables => ⟨true, true, ex.2 ++ tr.2 ++ (loadStage loadOk tables).2⟩

/-- The persistent outputs (files and database tables) by destination. -/
def OutState := Dest → Option DataFrame

/-- One write with replace semantics: the destination's previous
content is fully overwritten. -/
def applyWrite (s : OutState) (w : Writeout) : OutState :=
  fun d => if d = w.1 then some w.2 else s d

def applyWrites (s : OutState) (ws : List Writeout) : OutState :=
  ws.foldl applyWrite s

/-!
A concrete well-formed raw sheet, laid out like the source spreadsheet:
56 columns, two header rows, three data rows.  Eleven empty header
cells (columns 36-46) become columns named "nan", so that after the
"nan"-column drop the forced date labels land inside the documented
slice ranges: date_1 at 0, date_2 at 17, date_3 at 34, date_4 at 35+11
positions earlier, namely 35.
-/

/-- Build one 56-cell row from an index/cell assignment; unassigned
positions are empty cells. -/
def mkRow (assign : List (Nat × Cell)) : List Cell :=
  (List.range 56).map (fun i => (assign.lookup i).getD Cell.empty)

def exHeaderRow : List Cell :=
  [Cell.str "Skip", Cell.str "Date", Cell.str "Gross Oil", Cell.str "Net Oil",
   Cell.str "EGLNG Propane Sales", Cell.str "LLC Share of Secondary Condensate",
   Cell.str "PSC Share of Secondary Condensate", Cell.str "Condensate",
   Cell.str "Propane", Cell.str "Butane", Cell.str "LPG", Cell.str "Stock",
   Cell.str "Gap-1", Cell.str "Fuel Gas", Cell.str "Flare Gas", Cell.str "Inj Gas",
   Cell.str "Export Gas", Cell.str "Misc Gas", Cell.str "Whatever",
   Cell.str "AMPCO Gas Sales", Cell.str "EGLNG Gas Sales", Cell.str "Gas Sales",
   Cell.str "Offshore Gas", Cell.str "Gas A", Cell.str "Gas B",
   Cell.str "Gap-2", Cell.str "Gap-3", Cell.str "Gap-4",
   Cell.str "Tank Name", Cell.str "Standard Net Oil Volume (bbls)",
   Cell.str "Tank A", Cell.str "Tank B", Cell.str "Tank C", Cell.str "Tank D",
   Cell.str "Tank E", Cell.str "Anything",
   Cell.empty, Cell.empty, Cell.empty, Cell.empty, Cell.empty, Cell.empty,
   Cell.empty, Cell.empty, Cell.empty, Cell.empty, Cell.empty,
   Cell.str "Stuff", Cell.str "Lifting Vol", Cell.str "Lifting Dest",
   Cell.str "X1", Cell.str "X2", Cell.str "X3", Cell.str "X4", Cell.str "X5",
   Cell.str "Y"]

/-- Data row present in every sub-table. -/
def exRowA : List Cell :=
  mkRow [(1, Cell.str "2024-01-15 08:30:00"), (2, Cell.str "42.5"),
         (3, Cell.str "1,234"), (18, Cell.str "notadate"), (19, Cell.num 5),
         (21, Cell.num 3), (28, Cell.str "T1"), (29, Cell.num 100),
         (35, Cell.str "2024-01-16"), (47, Cell.str "2024-01-15"),
         (48, Cell.num 10)]

/-- Data row empty across the liquid-hydrocarbons and tank slices but
not across the gas-production and daily-lifting slices. -/
def exRowB : List Cell :=
  mkRow [(18, Cell.str "2024-02-01"), (19, Cell.num 7),
         (47, Cell.str "2024-02-01"), (48, Cell.num 1)]

/-- Data row empty everywhere: dropped from all four sub-tables. -/
def exRowC : List Cell :=
  mkRow []

def exDF : DataFrame :=
  ⟨(List.range 56).map (fun i => "c" ++ toString i),
   [mkRow [], exHeaderRow, exRowA, exRowB, exRowC]⟩

def dummyDF : DataFrame := ⟨[], []⟩

/-- The concrete transform output on the example sheet. -/
def exOut : DataFrame × DataFrame × DataFrame × DataFrame × DataFrame :=
  (transform exDF).getD (dummyDF, dummyDF, dummyDF, dummyDF, dummyDF)

def exRaw : DataFrame := exOut.1
def exLhc : DataFrame := exOut.2.1
def exGp : DataFrame := exOut.2.2.1
def exTd : DataFrame := exOut.2.2.2.1
def exDld : DataFrame := exOut.2.2.2.2

/-- The concrete cleaned wide table on the example sheet. -/
def exW : DataFrame := (cleanedWide exDF).getD dummyDF

/-- The concrete stage tuple the driver passes to load. -/
def exTables : DataFrame × DataFrame × DataFrame × DataFrame :=
  ((transformStage (some exDF)).1).getD (dummyDF, dummyDF, dummyDF, dummyDF)

/-!
General lemmas about the embedded operations.
-/

lemma cleanedWide_inv {df w : DataFrame} (hw : cleanedWide df = some w) :
    ∃ names, derivedHeader df = some names ∧
      w = mapCols
            (fun n => !(((sliceCols 1 50 ⟨names, df.rows.drop 2⟩).colNames.filter containsDate
                          ++ ["tank_name", "product"]).contains n))
            pdToNumeric
            (filterCols (fun n => n != "nan")
              (mapCols containsDate (fun c => floorD (pdToDatetime c))
                (sliceCols 1 50 ⟨names, df.rows.drop 2⟩))) := by
  unfold cleanedWide at hw
  cases hd : derivedHeader df with
  | none => rw [hd] at hw; exact absurd hw (by simp)
  | some names =>
    rw [hd] at hw
    dsimp only at hw
    refine ⟨names, rfl, ?_⟩
    split at hw
    · exact (Option.some_inj.mp hw).symm
    · exact absurd hw (by simp)

lemma transform_inv {df raw' lhc gp td dld : DataFrame}
    (ht : transform df = some (raw', lhc, gp, td, dld)) :
    ∃ names w lhc1 gp1 td1,
      derivedHeader df = some names ∧ cleanedWide df = some w ∧
      dropColumns lhcDropCols (dropnaAll (sliceCols 0 11 w)) = some lhc1 ∧
      selectCols gpKeepCols (dropnaAll (sliceCols 12 24 w)) = some gp1 ∧
      selectCols tdKeepCols (dropnaAll (sliceCols 27 35 w)) = some td1 ∧
      raw' = ⟨names, df.rows⟩ ∧
      lhc = renameCol "date_1" "date" lhc1 ∧
      gp = renameCol "date_2" "date" gp1 ∧
      td = renameCol "date_3" "date" td1 ∧
      dld = renameCol "date_4" "date" (dropnaAll (sliceCols 35 38 w)) := by
  unfold transform at ht
  cases hd : derivedHeader df with
  | none => rw [hd] at ht; exact absurd ht (by simp)
  | some names =>
    cases hw : cleanedWide df with
    | none => rw [hd, hw] at ht; exact absurd ht (by simp)
    | some w =>
      rw [hd, hw] at ht
      dsimp only at ht
      cases h1 : dropColumns lhcDropCols (dropnaAll (sliceCols 0 11 w)) with
      | none => rw [h1] at ht; exact absurd ht (by simp)
      | some lhc1 =>
        cases h2 : selectCols gpKeepCols (dropnaAll (sliceCols 12 24 w)) with
        | none => rw [h1, h2] at ht; exact absurd ht (by simp)
        | some gp1 =>
          cases h3 : selectCols tdKeepCols (dropnaAll (sliceCols 27 35 w)) with
          | none => rw [h1, h2, h3] at ht; exact absurd ht (by simp)
          | some td1 =>
            rw [h1, h2, h3] at ht
            simp only [Option.some.injEq, Prod.mk.injEq] at ht
            obtain ⟨e0, e1, e2, e3, e4⟩ := ht
            exact ⟨names, w, lhc1, gp1, td1, rfl, rfl, h1, h2, h3,
                   e0.symm, e1.symm, e2.symm, e3.symm, e4.symm⟩

lemma getCell_mapCols {p : String → Bool} {f : Cell → Cell} {df : DataFrame}
    {i j : Nat} {n : String} {c : Cell}
    (hn : df.colNames[j]? = some n) (hp : p n = true)
    (hc : getCell df i j = some c) :
    getCell (mapCols p f df) i j = some (f c) := by
  unfold getCell at hc ⊢
  cases hr : df.rows[i]? with
  | none => rw [hr] at hc; exact absurd hc (by simp)
  | some r =>
    rw [hr] at hc
    simp only [Option.some_bind] at hc
    have hz : (df.colNames.zip r)[j]? = some (n, c) :=
      List.getElem?_zip_eq_some.mpr ⟨hn, hc⟩
    have hrow :
        (mapCols p f df).rows[i]? =
          some ((df.colNames.zip r).map (fun nc => if p nc.1 then f nc.2 else nc.2)) := by
      simp [mapCols, hr]
    rw [hrow]
    simp only [Option.some_bind, List.getElem?_map, hz, Option.map_some]
    simp [hp]

lemma rows_length_mapCols (p : String → Bool) (f : Cell → Cell) (df : DataFrame) :
    (mapCols p f df).rows.length = df.rows.length := by
  simp [mapCols]

lemma rows_length_filterCols (p : String → Bool) (df : DataFrame) :
    (filterCols p df).rows.length = df.rows.length := by
  simp [filterCols]

lemma rows_length_sliceCols (a b : Nat) (df : DataFrame) :
    (sliceCols a b df).rows.length = df.rows.length := by
  simp [sliceCols]

lemma rows_length_dropnaAll_le (df : DataFrame) :
    (dropnaAll df).rows.length ≤ df.rows.length :=
  List.length_filter_le _ _

lemma cleanedWide_rows_length {df w : DataFrame} (hw : cleanedWide df = some w) :
    w.rows.length = df.rows.length - 2 := by
  obtain ⟨names, _, rfl⟩ := cleanedWide_inv hw
  simp [rows_length_mapCols, rows_length_filterCols, sliceCols]

lemma applyWrites_not_written {ws : List Writeout} {d : Dest}
    (h : (ws.map Prod.fst).contains d = false) :
    ∀ s : OutState, applyWrites s ws d = s d := by
  induction ws with
  | nil => intro s; rfl
  | cons w t ih =>
    intro s
    simp only [List.map_cons, List.contains_cons, Bool.or_eq_false_iff,
      beq_eq_false_iff_ne, ne_eq] at h
    have step : applyWrites s (w :: t) = applyWrites (applyWrite s w) t := rfl
    rw [step, ih h.2]
    simp [applyWrite, h.1]

lemma applyWrites_written {ws : List Writeout} {d : Dest}
    (h : (ws.map Prod.fst).contains d = true) :
    ∀ s₁ s₂ : OutState, applyWrites s₁ ws d = applyWrites s₂ ws d := by
  induction ws with
  | nil => simp at h
  | cons w t ih =>
    intro s₁ s₂
    have step : ∀ s : OutState, applyWrites s (w :: t) = applyWrites (applyWrite s w) t :=
      fun _ => rfl
    rw [step, step]
    cases ht : (t.map Prod.fst).contains d with
    | true => exact ih ht _ _
    | false =>
      rw [applyWrites_not_written ht, applyWrites_not_written ht]
      simp only [List.map_cons, List.contains_cons, ht, Bool.or_false, beq_iff_eq] at h
      simp [applyWrite, h]

lemma dropColumns_eq_some {bad : List String} {df out : DataFrame}
    (h : dropColumns bad df = some out) :
    out = filterCols (fun n => !(bad.contains n)) df := by
  unfold dropColumns at h
  split at h
  · exact (Option.some_inj.mp h).symm
  · exact absurd h (by simp)

lemma selectCols_eq_some {names : List String} {df out : DataFrame}
    (h : selectCols names df = some out) :
    ∃ idxs, names.mapM (fun n => df.colNames.findIdx? (fun m => m == n)) = some idxs ∧
      out = ⟨names, df.rows.map (selectRow idxs)⟩ := by
  unfold selectCols at h
  cases hm : names.mapM (fun n => df.colNames.findIdx? (fun m => m == n)) with
  | none => rw [hm] at h; exact absurd h (by simp)
  | some idxs =>
    rw [hm] at h
    exact ⟨idxs, rfl, (Option.some_inj.mp h).symm⟩

/-!
The claims.
-/

lemma applyRenames_eq (ns : List String) :
    applyRenames ns =
      ((((ns.set 1 "date_1").set 18 "date_2").set 35 "date_3").set 47 "date_4").set 55 "date_5" :=
  rfl

lemma applyRenames_positions {ns : List String} (h : 56 ≤ ns.length) :
    (applyRenames ns)[1]? = some "date_1" ∧ (applyRenames ns)[18]? = some "date_2" ∧
    (applyRenames ns)[35]? = some "date_3" ∧ (applyRenames ns)[47]? = some "date_4" ∧
    (applyRenames ns)[55]? = some "date_5" := by
  have h1 : 1 < ns.length := by omega
  have h18 : 18 < ns.length := by omega
  have h35 : 35 < ns.length := by omega
  have h47 : 47 < ns.length := by omega
  have h55 : 55 < ns.length := by omega
  refine ⟨?_, ?_, ?_, ?_, ?_⟩ <;>
    simp [applyRenames_eq, List.getElem?_set, List.length_set, h1, h18, h35, h47, h55]

/-- Claim C3: whenever the header row (row index 1 of the raw sheet) has at
least 56 entries, the derived column names at positions 1, 18, 35, 47 and 55
are exactly date_1 .. date_5, whatever text those header cells hold; in
particular any text placed at position 18 still yields date_2 there. -/
theorem derived_names_fixed_dates (hs : List Cell) (h : 56 ≤ hs.length) :
    ((applyRenames (hs.map (fun c => normalizeName (cellToStr c))))[1]? = some "date_1" ∧
     (applyRenames (hs.map (fun c => normalizeName (cellToStr c))))[18]? = some "date_2" ∧
     (applyRenames (hs.map (fun c => normalizeName (cellToStr c))))[35]? = some "date_3" ∧
     (applyRenames (hs.map (fun c => normalizeName (cellToStr c))))[47]? = some "date_4" ∧
     (applyRenames (hs.map (fun c => normalizeName (cellToStr c))))[55]? = some "date_5") ∧
    ∀ s : String,
      (applyRenames ((hs.set 18 (Cell.str s)).map (fun c => normalizeName (cellToStr c))))[18]?
        = some "date_2" := by
  constructor
  · exact applyRenames_positions (by simpa using h)
  · intro s
    exact (applyRenames_positions (by simpa using h)).2.1

/-- Claim C3 witness: the renaming contract evaluated on a concrete
56-entry header row. -/
theorem derived_names_fixed_dates_witness :
    (56 ≤ (List.replicate 56 Cell.empty).length) ∧
    (((applyRenames ((List.replicate 56 Cell.empty).map (fun c => normalizeName (cellToStr c))))[1]? = some "date_1" ∧
      (applyRenames ((List.replicate 56 Cell.empty).map (fun c => normalizeName (cellToStr c))))[18]? = some "date_2" ∧
      (applyRenames ((List.replicate 56 Cell.empty).map (fun c => normalizeName (cellToStr c))))[35]? = some "date_3" ∧
      (applyRenames ((List.replicate 56 Cell.empty).map (fun c => normalizeName (cellToStr c))))[47]? = some "date_4" ∧
      (applyRenames ((List.replicate 56 Cell.empty).map (fun c => normalizeName (cellToStr c))))[55]? = some "date_5") ∧
     ∀ s : String,
       (applyRenames (((List.replicate 56 Cell.empty).set 18 (Cell.str s)).map
           (fun c => normalizeName (cellToStr c))))[18]? = some "date_2") :=
  ⟨by decide, derived_names_fixed_dates (List.replicate 56 Cell.empty) (by decide)⟩

/-- Claim C4: every cell of a column whose name contains the substring
"date" is parsed by the element-wise to_datetime-with-coerce and then
day-floored; the concrete string 2024-01-15 08:30:00 yields exactly the
day value 2024-01-15 (epoch day 19737) with no time component, and an
unparseable cell yields the missing marker instead of an error. -/
theorem date_columns_parsed :
    (∀ (df : DataFrame) (i j : Nat) (n : String) (c : Cell),
        df.colNames[j]? = some n → containsDate n = true → getCell df i j = some c →
        getCell (mapCols containsDate (fun x => floorD (pdToDatetime x)) df) i j
          = some (floorD (pdToDatetime c))) ∧
    floorD (pdToDatetime (Cell.str "2024-01-15 08:30:00")) = pdToDatetime (Cell.str "2024-01-15") ∧
    pdToDatetime (Cell.str "2024-01-15") = Cell.dt (19737 * nsPerDay) ∧
    pdToDatetime (Cell.str "not a date") = Cell.empty := by
  refine ⟨?_, by decide, by decide, by decide⟩
  intro df i j n c hn hp hc
  exact getCell_mapCols hn hp hc

def exDateDF : DataFrame :=
  ⟨["production_date"], [[Cell.str "2024-01-15 08:30:00"]]⟩

/-- Claim C4 witness: the date-parsing step evaluated on a concrete
one-cell frame. -/
theorem date_columns_parsed_witness :
    getCell (mapCols containsDate (fun x => floorD (pdToDatetime x)) exDateDF) 0 0
      = some (floorD (pdToDatetime (Cell.str "2024-01-15 08:30:00"))) :=
  date_columns_parsed.1 exDateDF 0 0 "production_date" (Cell.str "2024-01-15 08:30:00")
    (by decide) (by decide) (by decide)

/-- Claim C5: every cell of a column not in the exclusion list (the date
columns plus tank_name and product) is coerced by the element-wise
to_numeric-with-coerce; a cell holding 1,234 or the empty string becomes
the missing marker rather than an error, and 42.5 becomes the number 42.5. -/
theorem numeric_columns_coerced :
    (∀ (df : DataFrame) (exclude : List String) (i j : Nat) (n : String) (c : Cell),
        df.colNames[j]? = some n → exclude.contains n = false → getCell df i j = some c →
        getCell (mapCols (fun m => !(exclude.contains m)) pdToNumeric df) i j
          = some (pdToNumeric c)) ∧
    pdToNumeric (Cell.str "1,234") = Cell.empty ∧
    pdToNumeric (Cell.str "") = Cell.empty ∧
    pdToNumeric (Cell.str "42.5") = Cell.num 42.5 := by
  refine ⟨?_, by decide, by decide, ?_⟩
  · intro df exclude i j n c hn hx hc
    exact getCell_mapCols hn (by simp only [hx, Bool.not_false]) hc
  · have h1 : pdToNumeric (Cell.str "42.5") = Cell.num (mkRat 85 2) := by decide
    rw [h1]
    norm_num [Rat.mkRat_eq_divInt, Rat.divInt_eq_div]

def exNumDF : DataFrame :=
  ⟨["sales_volume"], [[Cell.str "42.5"]]⟩

/-- Claim C5 witness: the numeric-coercion step evaluated on a concrete
one-cell frame. -/
theorem numeric_columns_coerced_witness :
    getCell (mapCols (fun m => !(["date_1", "tank_name", "product"].contains m)) pdToNumeric exNumDF) 0 0
      = some (pdToNumeric (Cell.str "42.5")) :=
  numeric_columns_coerced.1 exNumDF ["date_1", "tank_name", "product"] 0 0 "sales_volume"
    (Cell.str "42.5") (by decide) (by decide) (by decide)

/-- Claim C1: on any successfully transformed sheet, exactly four tables
are produced (the return type), sliced from the cleaned wide table by the
fixed column ranges 0-11, 12-24, 27-35 and 35-38, and their final column
lists are: the liquid-hydrocarbons slice minus the three dropped sales
columns with date_1 renamed to date; the five fixed gas-production
columns with date; the three fixed tank-data columns with date; and the
daily-lifting slice with date_4 renamed to date. -/
theorem transform_four_tables :
    ∀ (df w raw' lhc gp td dld : DataFrame),
      cleanedWide df = some w →
      transform df = some (raw', lhc, gp, td, dld) →
      lhc.colNames =
        ((sliceCols 0 11 w).colNames.filter (fun n => !(lhcDropCols.contains n))).map
          (fun n => if n == "date_1" then "date" else n) ∧
      gp.colNames = ["date", "ampco_gas_sales", "eglng_gas_sales", "gas_sales", "offshore_gas"] ∧
      td.colNames = ["date", "tank_name", "standard_net_oil_volume_(bbls)"] ∧
      dld.colNames =
        (sliceCols 35 38 w).colNames.map (fun n => if n == "date_4" then "date" else n) := by
  intro df w raw' lhc gp td dld hw ht
  obtain ⟨names, w', lhc1, gp1, td1, hd, hw', h1, h2, h3, hraw, hlhc, hgp, htd, hdld⟩ :=
    transform_inv ht
  rw [hw] at hw'
  obtain rfl : w = w' := Option.some_inj.mp hw'
  refine ⟨?_, ?_, ?_, ?_⟩
  · rw [hlhc, dropColumns_eq_some h1]
    simp [renameCol, filterCols, dropnaAll]
  · obtain ⟨idxs, hm, hgp1⟩ := selectCols_eq_some h2
    rw [hgp, hgp1]
    simp [renameCol, gpKeepCols]
  · obtain ⟨idxs, hm, htd1⟩ := selectCols_eq_some h3
    rw [htd, htd1]
    simp [renameCol, tdKeepCols]
  · rw [hdld]
    simp [renameCol, dropnaAll]

set_option maxRecDepth 100000 in
/-- Claim C1 witness: the column-list contract evaluated on the concrete
example sheet. -/
theorem transform_four_tables_witness :
    exLhc.colNames =
      ((sliceCols 0 11 exW).colNames.filter (fun n => !(lhcDropCols.contains n))).map
        (fun n => if n == "date_1" then "date" else n) ∧
    exGp.colNames = ["date", "ampco_gas_sales", "eglng_gas_sales", "gas_sales", "offshore_gas"] ∧
    exTd.colNames = ["date", "tank_name", "standard_net_oil_volume_(bbls)"] ∧
    exDld.colNames =
      (sliceCols 35 38 exW).colNames.map (fun n => if n == "date_4" then "date" else n) :=
  transform_four_tables exDF exW exRaw exLhc exGp exTd exDld (by decide) (by decide)

/-- Claim C2: the rows a sub-table loses during cleaning are exactly the
rows that are missing in every column of that sub-table's own slice
(column projection is applied only after the row filter), each of the
four slices being filtered independently; concretely, on the example
sheet the data row at index 1 is entirely missing in the
liquid-hydrocarbons slice yet not in the gas-production slice, so it is
dropped from the former and kept in the latter. -/
theorem subtable_rows_cleaned :
    (∀ (df w raw' lhc gp td dld : DataFrame),
      cleanedWide df = some w →
      transform df = some (raw', lhc, gp, td, dld) →
      lhc.rows =
        ((sliceCols 0 11 w).rows.filter keepRow).map
          (filterRow (fun n => !(lhcDropCols.contains n)) (sliceCols 0 11 w).colNames) ∧
      (∃ idxs,
        gpKeepCols.mapM (fun n => (sliceCols 12 24 w).colNames.findIdx? (fun m => m == n))
          = some idxs ∧
        gp.rows = ((sliceCols 12 24 w).rows.filter keepRow).map (selectRow idxs)) ∧
      (∃ idxs,
        tdKeepCols.mapM (fun n => (sliceCols 27 35 w).colNames.findIdx? (fun m => m == n))
          = some idxs ∧
        td.rows = ((sliceCols 27 35 w).rows.filter keepRow).map (selectRow idxs)) ∧
      dld.rows = (sliceCols 35 38 w).rows.filter keepRow) ∧
    (cleanedWide exDF = some exW ∧
     keepRow ((sliceCols 0 11 exW).rows.getD 1 []) = false ∧
     keepRow ((sliceCols 12 24 exW).rows.getD 1 []) = true) := by
  constructor
  · intro df w raw' lhc gp td dld hw ht
    obtain ⟨names, w', lhc1, gp1, td1, hd, hw', h1, h2, h3, hraw, hlhc, hgp, htd, hdld⟩ :=
      transform_inv ht
    rw [hw] at hw'
    obtain rfl : w = w' := Option.some_inj.mp hw'
    refine ⟨?_, ?_, ?_, ?_⟩
    · rw [hlhc, dropColumns_eq_some h1]
      simp [renameCol, filterCols, dropnaAll]
    · obtain ⟨idxs, hm, hgp1⟩ := selectCols_eq_some h2
      exact ⟨idxs, hm, by rw [hgp, hgp1]; simp [renameCol, dropnaAll]⟩
    · obtain ⟨idxs, hm, htd1⟩ := selectCols_eq_some h3
      exact ⟨idxs, hm, by rw [htd, htd1]; simp [renameCol, dropnaAll]⟩
    · rw [hdld]
      simp [renameCol, dropnaAll]
  · exact ⟨by decide, by decide, by decide⟩

set_option maxRecDepth 100000 in
/-- Claim C2 witness: the row-cleaning contract evaluated on the concrete
example sheet. -/
theorem subtable_rows_cleaned_witness :
    exLhc.rows =
      ((sliceCols 0 11 exW).rows.filter keepRow).map
        (filterRow (fun n => !(lhcDropCols.contains n)) (sliceCols 0 11 exW).colNames) ∧
    (∃ idxs,
      gpKeepCols.mapM (fun n => (sliceCols 12 24 exW).colNames.findIdx? (fun m => m == n))
        = some idxs ∧
      exGp.rows = ((sliceCols 12 24 exW).rows.filter keepRow).map (selectRow idxs)) ∧
    (∃ idxs,
      tdKeepCols.mapM (fun n => (sliceCols 27 35 exW).colNames.findIdx? (fun m => m == n))
        = some idxs ∧
      exTd.rows = ((sliceCols 27 35 exW).rows.filter keepRow).map (selectRow idxs)) ∧
    exDld.rows = (sliceCols 35 38 exW).rows.filter keepRow :=
  subtable_rows_cleaned.1 exDF exW exRaw exLhc exGp exTd exDld (by decide) (by decide)

/-- Claim C9: each derived table has at most the raw table's row count
minus the two dropped header rows; and the four tables are not kept
row-aligned after cleaning — on the example sheet the
liquid-hydrocarbons and gas-production tables end up with different row
counts. -/
theorem derived_row_bound :
    (∀ (df raw' lhc gp td dld : DataFrame),
      transform df = some (raw', lhc, gp, td, dld) →
      lhc.rows.length ≤ df.rows.length - 2 ∧ gp.rows.length ≤ df.rows.length - 2 ∧
      td.rows.length ≤ df.rows.length - 2 ∧ dld.rows.length ≤ df.rows.length - 2) ∧
    (transform exDF = some (exRaw, exLhc, exGp, exTd, exDld) ∧
     exLhc.rows.length ≠ exGp.rows.length) := by
  constructor
  · intro df raw' lhc gp td dld ht
    obtain ⟨names, w, lhc1, gp1, td1, hd, hw, h1, h2, h3, hraw, hlhc, hgp, htd, hdld⟩ :=
      transform_inv ht
    have hwlen : w.rows.length = df.rows.length - 2 := cleanedWide_rows_length hw
    refine ⟨?_, ?_, ?_, ?_⟩
    · have he : lhc.rows.length = (dropnaAll (sliceCols 0 11 w)).rows.length := by
        rw [hlhc, dropColumns_eq_some h1]
        simp [renameCol, filterCols]
      rw [he, ← hwlen, ← rows_length_sliceCols 0 11 w]
      exact rows_length_dropnaAll_le _
    · obtain ⟨idxs, hm, hgp1⟩ := selectCols_eq_some h2
      have he : gp.rows.length = (dropnaAll (sliceCols 12 24 w)).rows.length := by
        rw [hgp, hgp1]
        simp [renameCol]
      rw [he, ← hwlen, ← rows_length_sliceCols 12 24 w]
      exact rows_length_dropnaAll_le _
    · obtain ⟨idxs, hm, htd1⟩ := selectCols_eq_some h3
      have he : td.rows.length = (dropnaAll (sliceCols 27 35 w)).rows.length := by
        rw [htd, htd1]
        simp [renameCol]
      rw [he, ← hwlen, ← rows_length_sliceCols 27 35 w]
      exact rows_length_dropnaAll_le _
    · have he : dld.rows.length = (dropnaAll (sliceCols 35 38 w)).rows.length := by
        rw [hdld]
        simp [renameCol]
      rw [he, ← hwlen, ← rows_length_sliceCols 35 38 w]
      exact rows_length_dropnaAll_le _
  · exact ⟨by decide, by decide⟩

set_option maxRecDepth 100000 in
/-- Claim C9 witness: the row bound evaluated on the concrete example
sheet (five raw rows, so each derived table has at most three). -/
theorem derived_row_bound_witness :
    exLhc.rows.length ≤ exDF.rows.length - 2 ∧ exGp.rows.length ≤ exDF.rows.length - 2 ∧
    exTd.rows.length ≤ exDF.rows.length - 2 ∧ exDld.rows.length ≤ exDF.rows.length - 2 :=
  derived_row_bound.1 exDF exRaw exLhc exGp exTd exDld (by decide)

set_option maxRecDepth 100000 in
/-- Claim C10 counterexample: transform does not leave the raw table
unchanged.  Source line 87 reassigns the column labels of the frame the
extractor produced, in place; on the example sheet the raw table after
transform differs from the raw table before it. -/
theorem transform_mutates_raw_table :
    transform exDF = some (exRaw, exLhc, exGp, exTd, exDld) ∧ exRaw ≠ exDF :=
  ⟨by decide, by decide⟩

/-- Claim C10 amended: transform's only effect on the raw table it
receives is the in-place reassignment of its column labels to the
derived header names; the row data is left unchanged. -/
theorem transform_raw_rows_preserved :
    ∀ (df raw' lhc gp td dld : DataFrame),
      transform df = some (raw', lhc, gp, td, dld) →
      raw'.rows = df.rows ∧ derivedHeader df = some raw'.colNames := by
  intro df raw' lhc gp td dld ht
  obtain ⟨names, w, lhc1, gp1, td1, hd, hw, h1, h2, h3, hraw, hlhc, hgp, htd, hdld⟩ :=
    transform_inv ht
  rw [hraw]
  exact ⟨rfl, hd⟩

set_option maxRecDepth 100000 in
/-- Claim C10 amended witness: on the example sheet the returned raw
table keeps its rows and carries the derived header as labels. -/
theorem transform_raw_rows_preserved_witness :
    exRaw.rows = exDF.rows ∧ derivedHeader exDF = some exRaw.colNames :=
  transform_raw_rows_preserved exDF exRaw exLhc exGp exTd exDld (by decide)

/-- Claim C6: when the input spreadsheet is missing, the extractor
returns no result; in that run the driver never invokes the load stage
and the pipeline writes nothing at all — in particular no final CSVs
and no database tables.  (The transform stage is still invoked by the
driver, but it fails on the absent frame before writing anything, and
unpacking its absent result raises inside run before load is reached.) -/
theorem missing_input_no_outputs :
    (extractStage none).1 = none ∧
    ∀ loadOk : Bool, run loadOk none = ⟨false, false, []⟩ :=
  ⟨rfl, fun _ => rfl⟩

set_option maxRecDepth 100000 in
/-- Claim C7 counterexample: the driver does not return a falsy result
whenever a stage fails.  On the example sheet with failing load
services, the load stage itself yields no result, yet run still returns
True - line 209 of the source discards load's return value. -/
theorem load_failure_still_reports_ok :
    (run false (some exDF)).ok = true ∧
    (transformStage (some exDF)).1 = some exTables ∧
    (loadStage false exTables).1 = none :=
  ⟨by decide, by decide, rfl⟩

/-- Claim C7 amended: the driver runs extract, then transform, then
load, and returns True exactly when the transform stage (fed the
extract result) produces its four tables; a load failure is logged and
swallowed and does not affect the returned boolean. -/
theorem run_ok_iff_transform_ok (loadOk : Bool) (input : Option DataFrame) :
    (run loadOk input).ok = ((transformStage (extractStage input).1).1).isSome ∧
    (run loadOk input).loadInvoked = ((transformStage (extractStage input).1).1).isSome := by
  unfold run
  dsimp only
  cases h : (transformStage (extractStage input).1).1 with
  | none => simp
  | some tables => simp

/-- Claim C8: the pipeline is deterministic and idempotent.  Every stage
is a function of the run input alone, and every output write fully
replaces the previous content of its destination; hence the content of
any destination the run writes does not depend on the pre-existing
output state, and applying the same run's writes a second time changes
nothing - two runs on identical input leave identical final CSVs and
database tables. -/
theorem pipeline_outputs_idempotent :
    ∀ (s₁ s₂ : OutState) (loadOk : Bool) (input : Option DataFrame) (d : Dest),
      (((run loadOk input).writes.map Prod.fst).contains d = true →
        applyWrites s₁ (run loadOk input).writes d = applyWrites s₂ (run loadOk input).writes d) ∧
      applyWrites (applyWrites s₁ (run loadOk input).writes) (run loadOk input).writes d
        = applyWrites s₁ (run loadOk input).writes d := by
  intro s₁ s₂ loadOk input d
  constructor
  · intro hmem
    exact applyWrites_written hmem _ _
  · cases hmem : (((run loadOk input).writes.map Prod.fst).contains d) with
    | true => exact applyWrites_written hmem _ _
    | false => exact applyWrites_not_written hmem _

set_option maxRecDepth 100000 in
/-- Claim C8 witness: on the example sheet, the final gas-production
destination is written, its content is independent of the two distinct
prior output states, and re-applying the run's writes is a no-op there. -/
theorem pipeline_outputs_idempotent_witness :
    applyWrites (fun _ => none) (run true (some exDF)).writes (Dest.final "gas_production")
      = applyWrites (fun _ => some dummyDF) (run true (some exDF)).writes
          (Dest.final "gas_production") ∧
    applyWrites (applyWrites (fun _ => none) (run true (some exDF)).writes)
        (run true (some exDF)).writes (Dest.final "gas_production")
      = applyWrites (fun _ => none) (run true (some exDF)).writes (Dest.final "gas_production") :=
  ⟨(pipeline_outputs_idempotent (fun _ => none) (fun _ => some dummyDF) true (some exDF)
      (Dest.final "gas_production")).1 (by decide),
   (pipeline_outputs_idempotent (fun _ => none) (fun _ => some dummyDF) true (some exDF)
      (Dest.final "gas_production")).2⟩

/-- Claim C6 witness: the missing-input run evaluated concretely. -/
theorem missing_input_no_outputs_witness :
    run true none = ⟨false, false, []⟩ :=
  missing_input_no_outputs.2 true

set_option maxRecDepth 100000 in
/-- Claim C7 amended witness: the driver outcome evaluated on the
concrete example input. -/
theorem run_ok_iff_transform_ok_witness :
    (run true (some exDF)).ok = ((transformStage (extractStage (some exDF)).1).1).isSome :=
  (run_ok_iff_transform_ok true (some exDF)).1
